import Mathlib

/-!
Verification of the LiteEth GateMate RGMII PHY (`liteeth/phy/gatematergmii.py`).

The construction-time configuration logic (performance-profile lookup,
delay-tap computation, assertions) is embedded as total Lean functions
returning `Except`, mirroring Python exception propagation.  Python float
arithmetic on the delay constants is idealised as exact rational arithmetic;
`int()` is truncation toward zero.  The synchronous RX data path is embedded
as a step function on the register state of the `eth_rx` clock domain, one
step per domain tick, with the `DDRInput` primitives modelled as the first
register stage and the programmable input-delay cells (pure sampling-phase
adjustment) left outside the clocked model.  The TX data path is a stateless
per-tick DDR encode.
-/

/-- ASCII case folding of one character, as Python `str.lower` acts on the
ASCII profile-name strings used by this module. -/
def pyLowerChar (c : Char) : Char :=
  if 65 ≤ c.toNat ∧ c.toNat ≤ 90 then Char.ofNat (c.toNat + 32) else c

/-- Python `str.lower` (ASCII range; all profile names in the module are ASCII). -/
def pyLower (s : String) : String := ⟨s.data.map pyLowerChar⟩

/-- One row of the `iodly_timing` table: best/typical/worst per-tap
propagation delay in seconds (lines 24-28). -/
structure IodlyEntry where
  best : ℚ
  typ : ℚ
  worst : ℚ
deriving DecidableEq

/-- The `iodly_timing` dict (lines 24-28).  `none` models a `KeyError` on an
unknown key. -/
def iodly_timing (key : String) : Option IodlyEntry :=
  if key = "speed" then some ⟨30/10^12, 38/10^12, 50/10^12⟩
  else if key = "economy" then some ⟨38/10^12, 50/10^12, 65/10^12⟩
  else if key = "lowpower" then some ⟨50/10^12, 65/10^12, 85/10^12⟩
  else none

/-- Python `int()` applied to a (here exactly represented) number:
truncation toward zero. -/
def pyInt (q : ℚ) : ℤ := if 0 ≤ q then ⌊q⌋ else ⌈q⌉

/-- The two exception classes construction can raise: `KeyError` from the
`iodly_timing[...]` lookup, `AssertionError` from `assert ..._taps < 16`. -/
inductive PhyError
  | keyError
  | assertionError
deriving DecidableEq

/-- Configuration state retained by a successfully constructed
`LiteEthPHYRGMIIRX` (lines 66-73): `self._iodly` and the computed
`rx_delay_taps`. -/
structure RXConfig where
  iodly : ℚ
  rx_delay_taps : ℤ
deriving DecidableEq

/-- `LiteEthPHYRGMIIRX.__init__` configuration phase (lines 67-73):
look up `iodly_timing[perf_mode.lower()]["worst"]`, compute
`rx_delay_taps = int(rx_delay/self._iodly)` and `assert rx_delay_taps < 16`.
Defaults in the source: `rx_delay=2e-9`, `perf_mode="undefined"`. -/
def LiteEthPHYRGMIIRX_init (rx_delay : ℚ) (perf_mode : String) :
    Except PhyError RXConfig :=
  match iodly_timing (pyLower perf_mode) with
  | none => .error .keyError
  | some e =>
      let taps := pyInt (rx_delay / e.worst)
      if taps < 16 then .ok ⟨e.worst, taps⟩ else .error .assertionError

/-- Configuration state retained by a successfully constructed
`LiteEthPHYRGMIICRG` (lines 122-137). -/
structure CRGConfig where
  iodly : ℚ
  tx_delay_taps : ℤ
  with_hw_init_reset : Bool
deriving DecidableEq

/-- `LiteEthPHYRGMIICRG.__init__` configuration phase (lines 123-137):
look up `iodly_timing[perf_mode.lower()]["worst"]`, compute
`tx_delay_taps = int(tx_delay/self._iodly)` and `assert tx_delay_taps < 16`.
Defaults in the source: `tx_delay=2e-9`, `perf_mode="undefined"`. -/
def LiteEthPHYRGMIICRG_init (with_hw_init_reset : Bool) (tx_delay : ℚ)
    (perf_mode : String) : Except PhyError CRGConfig :=
  match iodly_timing (pyLower perf_mode) with
  | none => .error .keyError
  | some e =>
      let taps := pyInt (tx_delay / e.worst)
      if taps < 16 then .ok ⟨e.worst, taps, with_hw_init_reset⟩
      else .error .assertionError

/-- Configuration of a successfully constructed top-level `LiteEthPHYRGMII`. -/
structure PHYConfig where
  crg : CRGConfig
  rx : RXConfig
deriving DecidableEq

/-- `LiteEthPHYRGMII.__init__` (lines 174-182): constructs the CRG with the
given `perf_mode`, then the (never-failing) TX path, then the RX path.
Line 181 passes only `(pads, rx_delay)` to `LiteEthPHYRGMIIRX`, so the RX
constructor runs with its own default `perf_mode="undefined"`.
Defaults in the source: `with_hw_init_reset=True`, `tx_delay=0e-9`,
`rx_delay=0e-9`, `perf_mode="undefined"`. -/
def LiteEthPHYRGMII_init (with_hw_init_reset : Bool) (tx_delay rx_delay : ℚ)
    (perf_mode : String) : Except PhyError PHYConfig :=
  match LiteEthPHYRGMIICRG_init with_hw_init_reset tx_delay perf_mode with
  | .error e => .error e
  | .ok crg =>
      match LiteEthPHYRGMIIRX_init rx_delay "undefined" with
      | .error e => .error e
      | .ok rx => .ok ⟨crg, rx⟩

/-- The effective reset signal of the CRG (lines 156-162): the CSR storage
bit OR'd with the hardware init-reset pulse when `with_hw_init_reset` was
enabled, the CSR storage bit alone otherwise. -/
def crg_reset (with_hw_init_reset reset_storage hw_reset : Bool) : Bool :=
  if with_hw_init_reset then reset_storage || hw_reset else reset_storage

/-- Drive of the optional active-low `rst_n` pad (lines 163-164):
`pads.rst_n.eq(~reset)`. -/
def pads_rst_n (reset : Bool) : Bool := !reset

-- Helper evaluations of the delay table on the concrete keys used below.

theorem iodly_speed :
    iodly_timing (pyLower "speed") = some ⟨30/10^12, 38/10^12, 50/10^12⟩ := rfl

theorem iodly_undefined : iodly_timing (pyLower "undefined") = none := rfl

theorem iodly_turbo : iodly_timing (pyLower "turbo") = none := rfl

/-- Any table hit has a positive worst-case tap delay. -/
theorem iodly_worst_pos {s : String} {e : IodlyEntry}
    (h : iodly_timing s = some e) : 0 < e.worst := by
  unfold iodly_timing at h
  split_ifs at h <;> simp_all <;> rw [← h] <;> norm_num

/-- For a nonnegative argument, Python truncation agrees with the floor. -/
theorem pyInt_eq_floor {q : ℚ} (h : 0 ≤ q) : pyInt q = ⌊q⌋ := if_pos h

/-- The RX constructor never recognises `perf_mode="undefined"`. -/
theorem rx_init_undefined (rx_delay : ℚ) :
    LiteEthPHYRGMIIRX_init rx_delay "undefined" = .error .keyError := by
  unfold LiteEthPHYRGMIIRX_init
  rw [iodly_undefined]

/-- The CRG constructor never recognises `perf_mode="undefined"`. -/
theorem crg_init_undefined (w : Bool) (td : ℚ) :
    LiteEthPHYRGMIICRG_init w td "undefined" = .error .keyError := by
  unfold LiteEthPHYRGMIICRG_init
  rw [iodly_undefined]

/-- The CRG constructor accepts `perf_mode="speed"` with `tx_delay=0`. -/
theorem crg_init_speed_zero :
    LiteEthPHYRGMIICRG_init true 0 "speed" = .ok ⟨50/10^12, 0, true⟩ := by
  unfold LiteEthPHYRGMIICRG_init
  rw [iodly_speed]
  simp [pyInt]

/-- C1: the claim that a recognized `perf_mode` with small delays yields a
successful `LiteEthPHYRGMII` construction fails on the code: line 181 does
not forward `perf_mode` to `LiteEthPHYRGMIIRX`, so the RX constructor always
looks up its default `"undefined"` and raises `KeyError`.  First conjunct:
the concrete valid configuration (`with_hw_init_reset=True`, `tx_delay=0`,
`rx_delay=0`, `perf_mode="speed"`) raises `KeyError`.  Second conjunct:
no argument values whatsoever make the top-level construction succeed. -/
theorem thm_C1 :
    LiteEthPHYRGMII_init true 0 0 "speed" = .error .keyError ∧
    ∀ (w : Bool) (td rd : ℚ) (p : String) (c : PHYConfig),
      LiteEthPHYRGMII_init w td rd p ≠ .ok c := by
  constructor
  · unfold LiteEthPHYRGMII_init
    rw [crg_init_speed_zero, rx_init_undefined]
  · intro w td rd p c h
    unfold LiteEthPHYRGMII_init at h
    cases hc : LiteEthPHYRGMIICRG_init w td p with
    | error e => rw [hc] at h; exact Except.noConfusion h
    | ok crg => rw [hc, rx_init_undefined rd] at h; exact Except.noConfusion h

/-- C10: constructing the top-level `LiteEthPHYRGMII` without supplying
`perf_mode` uses the built-in default `"undefined"`, which the delay-table
lookup rejects, so every such construction fails with `KeyError`, whatever
the other arguments are. -/
theorem thm_C10 : ∀ (w : Bool) (td rd : ℚ),
    LiteEthPHYRGMII_init w td rd "undefined" = .error .keyError := by
  intro w td rd
  unfold LiteEthPHYRGMII_init
  rw [crg_init_undefined]

/-- C6: an unrecognised profile name makes the RX constructor fail with
`KeyError` (never a silent substitution); the table hits exactly the three
defined names after ASCII case folding; `"turbo"` misses; the three names
are accepted in arbitrary letter case. -/
theorem thm_C6 :
    (∀ (p : String) (rd : ℚ), iodly_timing (pyLower p) = none →
      LiteEthPHYRGMIIRX_init rd p = .error .keyError) ∧
    (∀ p : String, (iodly_timing (pyLower p)).isSome ↔
      (pyLower p = "speed" ∨ pyLower p = "economy" ∨ pyLower p = "lowpower")) ∧
    iodly_timing (pyLower "turbo") = none ∧
    (iodly_timing (pyLower "SPEED")).isSome = true ∧
    (iodly_timing (pyLower "Economy")).isSome = true ∧
    (iodly_timing (pyLower "lowPOWER")).isSome = true := by
  refine ⟨?_, ?_, iodly_turbo, by decide, by decide, by decide⟩
  · intro p rd h
    unfold LiteEthPHYRGMIIRX_init
    rw [h]
  · intro p
    unfold iodly_timing
    split_ifs <;> simp_all

/-- C6 witness: the unknown profile `"turbo"` is rejected at a concrete
configuration. -/
theorem thm_C6_witness : LiteEthPHYRGMIIRX_init 0 "turbo" = .error .keyError :=
  thm_C6.1 "turbo" 0 rfl

/-- C9: the effective reset is the OR of the CSR request bit and, when
`with_hw_init_reset` is enabled, the hardware power-on pulse (the request
bit alone otherwise); the active-low `rst_n` pad is driven as its
negation. -/
theorem thm_C9 : ∀ w reset_storage hw_reset : Bool,
    crg_reset w reset_storage hw_reset = (reset_storage || (w && hw_reset)) ∧
    pads_rst_n (crg_reset w reset_storage hw_reset) =
      !(crg_reset w reset_storage hw_reset) := by decide

/-- C5: for a nonnegative delay `d` and a recognised profile, the computed
tap count is `⌊d / worst⌋` (Python truncation = floor for nonnegative
values), it is never negative, a count below 16 constructs successfully and
stores exactly that count, and a count at or above 16 fails the
construction-time assertion. -/
theorem thm_C5 (d : ℚ) (p : String) (e : IodlyEntry) (hd : 0 ≤ d)
    (he : iodly_timing (pyLower p) = some e) :
    pyInt (d / e.worst) = ⌊d / e.worst⌋ ∧
    0 ≤ ⌊d / e.worst⌋ ∧
    (⌊d / e.worst⌋ < 16 →
      LiteEthPHYRGMIIRX_init d p = .ok ⟨e.worst, ⌊d / e.worst⌋⟩) ∧
    (16 ≤ ⌊d / e.worst⌋ →
      LiteEthPHYRGMIIRX_init d p = .error .assertionError) := by
  have hwp : 0 < e.worst := iodly_worst_pos he
  have hq : 0 ≤ d / e.worst := div_nonneg hd hwp.le
  have hfl : pyInt (d / e.worst) = ⌊d / e.worst⌋ := pyInt_eq_floor hq
  refine ⟨hfl, Int.floor_nonneg.mpr hq, ?_, ?_⟩
  · intro hlt
    unfold LiteEthPHYRGMIIRX_init
    rw [he]
    simp only [hfl]
    rw [if_pos hlt]
  · intro h16
    unfold LiteEthPHYRGMIIRX_init
    rw [he]
    simp only [hfl]
    rw [if_neg (by omega)]

/-- C5 witness: `rx_delay = 2e-9` with profile `"speed"` gives tap count
`⌊(2e-9)/(50e-12)⌋ = 40 ≥ 16`, so the construction assertion fires. -/
theorem thm_C5_witness :
    (0:ℚ) ≤ 2/10^9 ∧
    LiteEthPHYRGMIIRX_init (2/10^9) "speed" = .error .assertionError := by
  have h := thm_C5 (2/10^9) "speed" ⟨30/10^12, 38/10^12, 50/10^12⟩
    (by norm_num) iodly_speed
  refine ⟨by norm_num, h.2.2.2 ?_⟩
  have hq : ((2/10^9 : ℚ) /
      ((⟨30/10^12, 38/10^12, 50/10^12⟩ : IodlyEntry).worst)) = ((40:ℤ):ℚ) := by
    norm_num
  rw [hq, Int.floor_intCast]
  norm_num

/-- Per-tick input to the RX path: the two DDR sub-samples (rising, falling)
of the `rx_ctl` pad and of each of the four `rx_data` pads, as captured by
the `DDRInput` primitives (lines 88-93 and 102-107). -/
structure RXInput where
  ctl : Bool × Bool
  dat : Fin 4 → Bool × Bool

/-- Assembly of the DDR-decoded byte (lines 96-108): `o1` of data line `i`
is byte bit `i`, `o2` of data line `i` is byte bit `4+i`. -/
def ddrByte (dat : Fin 4 → Bool × Bool) : ℕ :=
  (cond (dat 0).1 1 0) + (cond (dat 1).1 2 0) +
  (cond (dat 2).1 4 0) + (cond (dat 3).1 8 0) +
  (cond (dat 0).2 16 0) + (cond (dat 1).2 32 0) +
  (cond (dat 2).2 64 0) + (cond (dat 3).2 128 0)

/-- Register state of the `eth_rx` clock domain of `LiteEthPHYRGMIIRX`
(lines 75-120): the `DDRInput` output registers (`rx_ctl`, `rx_data`), the
first explicit register stage (`rx_ctl_reg`, `rx_data_reg`), the delayed
control copy (`rx_ctl_reg_d`), and the registered stream outputs
(`source.valid`, `source.data`). -/
structure RXState where
  rx_ctl : Bool × Bool
  rx_data : ℕ
  rx_ctl_reg : Bool × Bool
  rx_data_reg : ℕ
  rx_ctl_reg_d : Bool × Bool
  source_valid : Bool
  source_data : ℕ
deriving DecidableEq

/-- The reset value of every RX-domain register (all zero), enforced by the
`AsyncResetSynchronizer` on `cd_eth_rx` (line 167). -/
def rxIdle : RXState :=
  ⟨(false, false), 0, (false, false), 0, (false, false), false, 0⟩

/-- One `eth_rx` clock tick (the `self.sync` assignments of lines 95, 109,
112, 116-119, plus the `DDRInput` capture): every register takes the
pre-edge value of its source expression. -/
def rxStep (s : RXState) (inp : RXInput) : RXState where
  rx_ctl := inp.ctl
  rx_data := ddrByte inp.dat
  rx_ctl_reg := s.rx_ctl
  rx_data_reg := s.rx_data
  rx_ctl_reg_d := s.rx_ctl_reg
  source_valid := s.rx_ctl_reg.1
  source_data := s.rx_data_reg

/-- The combinational `last` output (lines 114-115, 120):
`source.last = ~rx_ctl_reg[0] & rx_ctl_reg_d[0]`. -/
def source_last (s : RXState) : Bool := !s.rx_ctl_reg.1 && s.rx_ctl_reg_d.1

/-- The RX-domain register trace: state after `n` clock edges, starting from
`s0`, with per-tick reset `rst` (asynchronously forcing `rxIdle`) and pad
samples `inp`. -/
def rxRun (s0 : RXState) (rst : ℕ → Bool) (inp : ℕ → RXInput) : ℕ → RXState
  | 0 => s0
  | n + 1 => if rst n then rxIdle else rxStep (rxRun s0 rst inp n) (inp n)

/-- A concrete stimulus: the control line is asserted (both sub-edges) for
ticks 2, 3 and 4 — a three-byte frame — and idle elsewhere; the data lines
idle. -/
def rxFrameInput : ℕ → RXInput := fun n =>
  ⟨(decide (2 ≤ n ∧ n < 5), decide (2 ≤ n ∧ n < 5)), fun _ => (false, false)⟩

/-- TX-domain output of `LiteEthPHYRGMIITX` for one tick: the two DDR
sub-samples driven on `tx_ctl` and on each of the four `tx_data` lines. -/
structure TXOut where
  tx_ctl : Bool × Bool
  tx_data : Fin 4 → Bool × Bool

/-- The per-tick DDR encode of `LiteEthPHYRGMIITX` (lines 37-63): `tx_ctl`
carries `sink.valid` on both sub-edges; data line `i` carries
`sink.data[i]` on the rising and `sink.data[4+i]` on the falling
sub-edge. -/
def LiteEthPHYRGMIITX_encode (valid : Bool) (data : Fin 256) : TXOut where
  tx_ctl := (valid, valid)
  tx_data := fun i => ((data : ℕ).testBit i, (data : ℕ).testBit (4 + i))

/-- `sink.ready` is constant true (line 64). -/
def tx_sink_ready : Bool := true

/-- The nibble formed by the rising-edge sub-samples of the four data
lines. -/
def txRisingNibble (o : TXOut) : ℕ :=
  (cond (o.tx_data 0).1 1 0) + (cond (o.tx_data 1).1 2 0) +
  (cond (o.tx_data 2).1 4 0) + (cond (o.tx_data 3).1 8 0)

/-- The nibble formed by the falling-edge sub-samples of the four data
lines. -/
def txFallingNibble (o : TXOut) : ℕ :=
  (cond (o.tx_data 0).2 1 0) + (cond (o.tx_data 1).2 2 0) +
  (cond (o.tx_data 2).2 4 0) + (cond (o.tx_data 3).2 8 0)

/-- C3: on every tick not following a reset assertion, the combinational
`last` output equals NOT of the current `rx_ctl_reg` bit 0 AND the previous
tick's `rx_ctl_reg` bit 0 (`rx_ctl_reg_d` holds exactly that previous
value): a falling transition between consecutive registered control
samples. -/
theorem thm_C3 (s0 : RXState) (rst : ℕ → Bool) (inp : ℕ → RXInput) (n : ℕ)
    (h : rst n = false) :
    source_last (rxRun s0 rst inp (n + 1)) =
      (!(rxRun s0 rst inp (n + 1)).rx_ctl_reg.1 &&
        (rxRun s0 rst inp n).rx_ctl_reg.1) := by
  simp [rxRun, h, rxStep, source_last]

/-- C3 witness: evaluated on the concrete three-byte frame at the tick where
the falling transition reaches `rx_ctl_reg`. -/
theorem thm_C3_witness :
    source_last (rxRun rxIdle (fun _ => false) rxFrameInput 7) =
      (!(rxRun rxIdle (fun _ => false) rxFrameInput 7).rx_ctl_reg.1 &&
        (rxRun rxIdle (fun _ => false) rxFrameInput 6).rx_ctl_reg.1) :=
  thm_C3 rxIdle (fun _ => false) rxFrameInput 6 rfl

/-- C4: with reset deasserted over the window, the registered `source.valid`
(and `source.data`) at tick `T+3` equal the control (and data) sub-samples
captured at tick `T`: a control-line assertion at tick `T` appears on
`valid` exactly three domain ticks later (DDR capture register,
`rx_ctl_reg`, output register), for every input stream — the delay-tap
setting does not enter the clocked pipeline at all. -/
theorem thm_C4 (s0 : RXState) (rst : ℕ → Bool) (inp : ℕ → RXInput) (T : ℕ)
    (h0 : rst T = false) (h1 : rst (T + 1) = false)
    (h2 : rst (T + 1 + 1) = false) :
    (rxRun s0 rst inp (T + 1 + 1 + 1)).source_valid = (inp T).ctl.1 ∧
    (rxRun s0 rst inp (T + 1 + 1 + 1)).source_data = ddrByte (inp T).dat := by
  simp [rxRun, h0, h1, h2, rxStep]

/-- C4 witness: the frame stimulus asserts the control line at tick 2 and
`valid` is observed true at tick 5 = 2+3. -/
theorem thm_C4_witness :
    (rxFrameInput 2).ctl.1 = true ∧
    (rxRun rxIdle (fun _ => false) rxFrameInput 5).source_valid = true := by
  refine ⟨rfl, ?_⟩
  have h := (thm_C4 rxIdle (fun _ => false) rxFrameInput 2 rfl rfl rfl).1
  exact h.trans rfl

/-- C2 counterexample: on the concrete three-byte frame (control asserted at
ticks 2-4), the output bytes are valid at ticks 5-7, and `last` asserts at
tick 7 — the tick OF the final valid byte (`valid` and `last` high
together) — while at tick 8, the tick immediately after the final valid
byte, both `valid` and `last` are low.  This contradicts the claim that
`last` marks the tick immediately after the final valid output byte. -/
theorem thm_C2_counterexample :
    (rxRun rxIdle (fun _ => false) rxFrameInput 7).source_valid = true ∧
    source_last (rxRun rxIdle (fun _ => false) rxFrameInput 7) = true ∧
    (rxRun rxIdle (fun _ => false) rxFrameInput 8).source_valid = false ∧
    source_last (rxRun rxIdle (fun _ => false) rxFrameInput 8) = false ∧
    (rxRun rxIdle (fun _ => false) rxFrameInput 6).source_valid = true ∧
    source_last (rxRun rxIdle (fun _ => false) rxFrameInput 6) = false ∧
    (rxRun rxIdle (fun _ => false) rxFrameInput 5).source_valid = true ∧
    source_last (rxRun rxIdle (fun _ => false) rxFrameInput 5) = false := by
  decide

/-- C2 (amended): away from reset, `last` asserts exactly when the current
output byte is valid and the next tick's output is not — i.e. exactly once
per frame, coinciding with the final valid output byte — and `last` never
asserts without `valid` asserted on the same tick. -/
theorem thm_C2 (s0 : RXState) (rst : ℕ → Bool) (inp : ℕ → RXInput) (n : ℕ)
    (h0 : rst n = false) (h1 : rst (n + 1) = false) :
    source_last (rxRun s0 rst inp (n + 1)) =
      ((rxRun s0 rst inp (n + 1)).source_valid &&
        !(rxRun s0 rst inp (n + 1 + 1)).source_valid) ∧
    (source_last (rxRun s0 rst inp (n + 1)) = true →
      (rxRun s0 rst inp (n + 1)).source_valid = true) := by
  constructor
  · simp [rxRun, h0, h1, rxStep, source_last, Bool.and_comm]
  · intro hl
    simp [rxRun, h0, rxStep, source_last] at hl ⊢
    exact hl.2

/-- C2 witness: on the concrete frame, `last` at tick 7 coincides with
`valid` at tick 7 and the deassertion of `valid` at tick 8. -/
theorem thm_C2_witness :
    source_last (rxRun rxIdle (fun _ => false) rxFrameInput 7) =
      ((rxRun rxIdle (fun _ => false) rxFrameInput 7).source_valid &&
        !(rxRun rxIdle (fun _ => false) rxFrameInput 8).source_valid) :=
  (thm_C2 rxIdle (fun _ => false) rxFrameInput 6 rfl rfl).1

set_option maxRecDepth 16000 in
/-- C7: every tick, data line `i` carries data bit `i` on the rising and
data bit `4+i` on the falling sub-edge, so the rising sub-samples form the
low nibble `data % 16` and the falling sub-samples the high nibble
`data / 16`, while the control line replicates `valid` on both sub-edges;
in particular bytes 0x00, 0xFF, 0xAA with `valid = true` give nibble pairs
(0x0,0x0), (0xF,0xF), (0xA,0xA). -/
theorem thm_C7 :
    (∀ (v : Bool) (d : Fin 256),
      (LiteEthPHYRGMIITX_encode v d).tx_ctl = (v, v) ∧
      (∀ i : Fin 4, (LiteEthPHYRGMIITX_encode v d).tx_data i =
        ((d : ℕ).testBit (i : ℕ), (d : ℕ).testBit (4 + (i : ℕ)))) ∧
      txRisingNibble (LiteEthPHYRGMIITX_encode v d) = (d : ℕ) % 16 ∧
      txFallingNibble (LiteEthPHYRGMIITX_encode v d) = (d : ℕ) / 16) ∧
    txRisingNibble (LiteEthPHYRGMIITX_encode true 0x00) = 0x0 ∧
    txFallingNibble (LiteEthPHYRGMIITX_encode true 0x00) = 0x0 ∧
    txRisingNibble (LiteEthPHYRGMIITX_encode true 0xFF) = 0xF ∧
    txFallingNibble (LiteEthPHYRGMIITX_encode true 0xFF) = 0xF ∧
    txRisingNibble (LiteEthPHYRGMIITX_encode true 0xAA) = 0xA ∧
    txFallingNibble (LiteEthPHYRGMIITX_encode true 0xAA) = 0xA ∧
    (LiteEthPHYRGMIITX_encode true 0xAA).tx_ctl = (true, true) := by
  decide

/-- C8: while the effective reset is asserted at tick `t`, the RX output
registers hold `valid = false` and `last = false` at `t+1` (the reset
state), and the TX control line — a stateless replication of the sink's
`valid`, which the same reset holds at its idle false value — carries false
on both sub-edges; if reset deasserts at `t+1`, the RX outputs still show
`valid = false` and `last = false` at `t+2`, one full tick after
deassertion, while the pipeline flushes. -/
theorem thm_C8 (s0 : RXState) (w : Bool) (reset_storage hw_reset : ℕ → Bool)
    (inp : ℕ → RXInput) (t : ℕ) (d : Fin 256)
    (h : crg_reset w (reset_storage t) (hw_reset t) = true) :
    ((rxRun s0 (fun n => crg_reset w (reset_storage n) (hw_reset n)) inp
        (t + 1)).source_valid = false ∧
      source_last (rxRun s0 (fun n => crg_reset w (reset_storage n) (hw_reset n))
        inp (t + 1)) = false) ∧
    (LiteEthPHYRGMIITX_encode false d).tx_ctl = (false, false) ∧
    (crg_reset w (reset_storage (t + 1)) (hw_reset (t + 1)) = false →
      (rxRun s0 (fun n => crg_reset w (reset_storage n) (hw_reset n)) inp
        (t + 1 + 1)).source_valid = false ∧
      source_last (rxRun s0 (fun n => crg_reset w (reset_storage n) (hw_reset n))
        inp (t + 1 + 1)) = false) := by
  refine ⟨?_, rfl, ?_⟩
  · simp [rxRun, h, rxIdle, source_last]
  · intro h1
    simp [rxRun, h, h1, rxStep, rxIdle, source_last]

/-- C8 witness: reset asserted at tick 0 through the CSR request bit and
released at tick 1; the RX outputs are idle at ticks 1 and 2. -/
theorem thm_C8_witness :
    (rxRun rxIdle
      (fun n => crg_reset true (decide (n = 0)) false) rxFrameInput 1).source_valid
      = false :=
  ((thm_C8 rxIdle true (fun n => decide (n = 0)) (fun _ => false) rxFrameInput 0 0
    rfl).1).1
